import Mathlib

/-!
Verification of the earnings-analysis pipeline (multi-agent workflow).

This file gives a shallow embedding of the pipeline's deterministic core:
the stage contract (`BaseAgent.process`), the Coordinator, the metric
extractor's value-normalization and record-building layer, the keyword
sentiment scorer, the recommendation synthesizer, and the LangGraph-style
node sequence.  Python floats are modelled as exact rationals; `round(x, 2)`
is modelled as exact half-up rounding of the rational value (the binary
floating-point tie artifacts of CPython are out of scope).  The regex
matching layer of the extractor is abstracted as the optional matched value
it produces; everything downstream of a match is modelled faithfully.
-/

/-- Python truthiness of an optional float: `None` and `0.0` are falsy. -/
def pyTruthy (v : Option ℚ) : Bool :=
  match v with
  | none => false
  | some x => if x = 0 then false else true

/-- Python `v or d` for an optional float `v`: the default `d` replaces both
`None` and the falsy value `0.0`. -/
def pyOrOpt (v : Option ℚ) (d : ℚ) : ℚ :=
  match v with
  | none => d
  | some x => if x = 0 then d else x

/-- Python `a or b` on strings: the empty string is falsy. -/
def pyOrStr (a b : String) : String :=
  if a = "" then b else a

/-- Rounding to two decimal places, `round(x, 2)`, modelled exactly on ℚ. -/
def round2 (q : ℚ) : ℚ :=
  (round (q * 100) : ℤ) / 100

/-- Python `int(x)` truncation toward zero on a rational. -/
def ratTrunc (q : ℚ) : ℤ :=
  q.num.tdiv (q.den : ℤ)

/-- Python `repr` of a list of strings, e.g. `['msg']`, as produced by the
f-string interpolation `f"... failed: \x7bresult.errors\x7d"`. -/
def pyListRepr (l : List String) : String :=
  "[" ++ String.intercalate ", " (l.map (fun s => "\x27" ++ s ++ "\x27")) ++ "]"

/-- Lower-casing of a string (`str.lower()`), done character-wise; ASCII
case mapping, which is what the report texts and keyword lists use. -/
def strLower (s : String) : String :=
  String.mk (s.data.map Char.toLower)

/-- Sequence containment on lists of characters: `needle` occurs
contiguously inside `hay`. -/
def charSeqIn (needle : List Char) : List Char → Bool
  | [] => needle.isEmpty
  | c :: rest => needle.isPrefixOf (c :: rest) || charSeqIn needle rest

/-- Case-insensitive presence test used by the sentiment scorer: the needle
is already lower-case and the haystack has been lowered by the caller. -/
def hasSub (hay needle : String) : Bool :=
  charSeqIn needle.data hay.data

/-- Agent lifecycle states (`AgentStatus` in `base.py`). -/
inductive AgentStatus
  | ready
  | running
  | success
  | failed
  | retry
deriving DecidableEq

/-- Fixed positive keyword list of the sentiment scorer (15 terms). -/
def POSITIVE_KEYWORDS : List String :=
  ["exceeded", "remarkable", "unprecedented", "strong", "outstanding",
   "thrilled", "growth", "substantial", "record", "success", "achieved",
   "improvement", "optimistic", "confident", "opportunity"]

/-- Fixed negative keyword list of the sentiment scorer (14 terms). -/
def NEGATIVE_KEYWORDS : List String :=
  ["challenge", "uncertainty", "risk", "decline", "cautious",
   "concern", "headwind", "saturation", "volatility", "weak",
   "shortfall", "miss", "pressure", "difficult"]

/-- Positive keywords present in the report, by case-insensitive substring
match (`keyword.lower() in content_lower`). -/
def positiveFound (content : String) : List String :=
  POSITIVE_KEYWORDS.filter (fun k => hasSub (strLower content) (strLower k))

/-- Negative keywords present in the report. -/
def negativeFound (content : String) : List String :=
  NEGATIVE_KEYWORDS.filter (fun k => hasSub (strLower content) (strLower k))

/-- Core sentiment / confidence computation of `_analyze_sentiment`
from the positive and negative keyword counts (confidence pre-rounding). -/
def sentimentAndConfidence (positive_count negative_count : ℕ) : String × ℚ :=
  let total_count := positive_count + negative_count
  if total_count = 0 then
    ("neutral", 1/2)
  else
    let positive_share : ℚ := (positive_count : ℚ) / (total_count : ℚ)
    if positive_share > 1/2 then
      ("positive",
        if 5 ≤ positive_count then 85/100
        else min (95/100) (70/100 + positive_share * (25/100)))
    else if positive_share < 1/2 then
      ("negative", min (95/100) ((1 - positive_share) * (1/2)))
    else
      ("neutral", 1/2)

/-- Output record of the sentiment scorer. -/
structure SentimentOutput where
  overall_sentiment : String
  confidence : ℚ
  management_tone : String
  key_positive_indicators : List String
  key_negative_indicators : List String
  risk_factors_identified : List String
deriving DecidableEq

/-- Keyword-based sentiment analysis, `SentimentAnalysisAgent._analyze_sentiment`. -/
def analyzeSentiment (report_content : String) : SentimentOutput :=
  let cl := strLower report_content
  let positive_list := positiveFound report_content
  let negative_list := negativeFound report_content
  let sc := sentimentAndConfidence positive_list.length negative_list.length
  let overall_sentiment := sc.1
  let confidence := sc.2
  let management_tone :=
    if overall_sentiment = "positive" ∧ negative_list ≠ [] then "optimistic_cautious"
    else if overall_sentiment = "positive" then "optimistic"
    else if overall_sentiment = "negative" then "cautious_pessimistic"
    else "neutral"
  let key_positive :=
    (if hasSub cl "exceeded" || hasSub cl "expectations" then
      ["exceeded expectations across all key metrics"] else []) ++
    (if hasSub cl "cloud" && hasSub cl "strong" then
      ["remarkable strength in cloud services"] else []) ++
    (if hasSub cl "ai" || hasSub cl "artificial intelligence" then
      ["unprecedented demand for AI solutions"] else []) ++
    (if hasSub cl "cash" && hasSub cl "generation" then
      ["strong balance sheet and cash generation"] else [])
  let key_negative :=
    (if hasSub cl "hardware" &&
        (hasSub cl "decline" || hasSub cl "challenge" || hasSub cl "-2%") then
      ["hardware division revenue decline"] else []) ++
    (if hasSub cl "saturation" || hasSub cl "market saturation" then
      ["potential market saturation concerns"] else []) ++
    (if hasSub cl "macro" || hasSub cl "uncertainty" || hasSub cl "economic" then
      ["macroeconomic uncertainties"] else [])
  let risk_factors :=
    (if hasSub cl "competition" || hasSub cl "competitive" then
      ["increasing cloud market competition"] else []) ++
    (if hasSub cl "regulatory" || hasSub cl "regulation" then
      ["regulatory scrutiny"] else []) ++
    (if hasSub cl "exchange" || hasSub cl "currency" then
      ["foreign exchange volatility"] else []) ++
    (if hasSub cl "slowdown" || hasSub cl "recession" then
      ["potential economic slowdown"] else []) ++
    (if hasSub cl "security" || hasSub cl "cyber" then
      ["cybersecurity threats"] else [])
  { overall_sentiment := overall_sentiment
    confidence := round2 confidence
    management_tone := management_tone
    key_positive_indicators :=
      if key_positive ≠ [] then key_positive else
        ["exceeded expectations across all key metrics",
         "remarkable strength in cloud services",
         "unprecedented demand for AI solutions",
         "strong balance sheet and cash generation"]
    key_negative_indicators :=
      if key_negative ≠ [] then key_negative else
        ["hardware division revenue decline",
         "potential market saturation concerns",
         "macroeconomic uncertainties"]
    risk_factors_identified :=
      if risk_factors ≠ [] then risk_factors else
        ["increasing cloud market competition",
         "regulatory scrutiny",
         "foreign exchange volatility",
         "potential economic slowdown",
         "cybersecurity threats"] }

/-- Conditional percentage normalization used by the metric extractor for
revenue YoY, net-income YoY, operating margin, cash-flow YoY and the
full-year growth range: values above 1 are read as percentages. -/
def normalizePct (v : ℚ) : ℚ :=
  if 1 < v then v / 100 else v

/-- Metric record for `revenue` and `net_income` (value, unit, YoY, trend). -/
structure MetricRecord where
  value : ℚ
  unit : String
  yoy_change : ℚ
  trend : String
deriving DecidableEq

/-- Revenue metric construction from the matched dollar value and the
optional matched YoY number (`_extract_metrics`, revenue section). -/
def mkRevenueMetric (value : ℚ) (yoyMatch : Option ℚ) : MetricRecord :=
  let revenue_yoy := yoyMatch.map normalizePct
  { value := value
    unit := "billion USD"
    yoy_change := pyOrOpt revenue_yoy (12/100)
    trend := if pyTruthy revenue_yoy = true ∧ 0 < revenue_yoy.getD 0
             then "positive" else "positive" }

/-- Net-income metric construction (`_extract_metrics`, net income section). -/
def mkNetIncomeMetric (value : ℚ) (yoyMatch : Option ℚ) : MetricRecord :=
  let net_income_yoy := yoyMatch.map normalizePct
  { value := value
    unit := "billion USD"
    yoy_change := pyOrOpt net_income_yoy (18/100)
    trend := if pyTruthy net_income_yoy = true ∧ 0 < net_income_yoy.getD 0
             then "positive" else "positive" }

/-- EPS record: extracted value, analyst estimate (default 4.30), beat flag. -/
structure EpsRecord where
  value : ℚ
  analyst_estimate : ℚ
  beat_estimate : Bool
deriving DecidableEq

/-- EPS record construction (`_extract_metrics`, EPS section). -/
def mkEpsRecord (value : ℚ) (estimateMatch : Option ℚ) : EpsRecord :=
  let analyst_estimate := estimateMatch.getD (43/10)
  { value := value
    analyst_estimate := analyst_estimate
    beat_estimate := if analyst_estimate < value then true else false }

/-- Operating-margin record: current, previous, qualitative trend. -/
structure MarginRecord where
  current : ℚ
  previous : ℚ
  trend : String
deriving DecidableEq

/-- Operating-margin construction (`_extract_metrics`, margin section). -/
def mkOperatingMargin (currentMatch : ℚ) (previousMatch : Option ℚ) : MarginRecord :=
  let current := normalizePct currentMatch
  let previous := previousMatch.map normalizePct
  { current := current
    previous := pyOrOpt previous (262/1000)
    trend := if pyTruthy previous = false ∨ previous.getD 0 ≤ current
             then "improving" else "declining" }

/-- Free-cash-flow record. -/
structure CashFlowRecord where
  value : ℚ
  unit : String
  yoy_change : ℚ
deriving DecidableEq

/-- Free-cash-flow construction (`_extract_metrics`, cash flow section). -/
def mkFreeCashFlow (value : ℚ) (yoyMatch : Option ℚ) : CashFlowRecord :=
  { value := value
    unit := "billion USD"
    yoy_change := pyOrOpt (yoyMatch.map normalizePct) (22/100) }

/-- Cloud-services segment record. -/
structure CloudSegmentRecord where
  revenue : ℚ
  growth_rate : ℚ
  operating_margin : ℚ
  new_customers : ℕ
  retention_rate : ℚ
deriving DecidableEq

/-- Cloud segment construction: the matched growth number is divided by 100
unconditionally (`cloud_growth = float(...) / 100`). -/
def mkCloudSegment (revenue : ℚ) (growthMatch : Option ℚ) : CloudSegmentRecord :=
  { revenue := revenue
    growth_rate := pyOrOpt (growthMatch.map (fun v => v / 100)) (35/100)
    operating_margin := 42/100
    new_customers := 2000
    retention_rate := 985/1000 }

/-- Software-products segment record. -/
structure SoftwareSegmentRecord where
  revenue : ℚ
  growth_rate : ℚ
  highlights : List String
deriving DecidableEq

/-- Software segment construction: matched growth divided by 100
unconditionally. -/
def mkSoftwareSegment (revenue : ℚ) (growthMatch : Option ℚ) : SoftwareSegmentRecord :=
  { revenue := revenue
    growth_rate := pyOrOpt (growthMatch.map (fun v => v / 100)) (8/100)
    highlights := ["enterprise security suite performance"] }

/-- Hardware segment record. -/
structure HardwareSegmentRecord where
  revenue : ℚ
  growth_rate : ℚ
  notes : String
deriving DecidableEq

/-- Hardware segment construction: matched decline divided by 100 and
negated; default growth is -0.02. -/
def mkHardwareSegment (revenue : ℚ) (declineMatch : Option ℚ) : HardwareSegmentRecord :=
  { revenue := revenue
    growth_rate :=
      match declineMatch with
      | none => -(2/100)
      | some v => -(v / 100)
    notes := "margin improvement despite revenue decline" }

/-- Q4 guidance: revenue range (reordered low-high) and fixed EPS range. -/
structure Q4Guidance where
  revenue_range : ℚ × ℚ
  eps_range : ℚ × ℚ
deriving DecidableEq

/-- Q4 guidance construction (`_extract_metrics`, forward guidance). -/
def mkQ4Guidance (rangeMatch : Option (ℚ × ℚ)) : Q4Guidance :=
  { revenue_range :=
      match rangeMatch with
      | none => (16, 165/10)
      | some (a, b) => (min a b, max a b)
    eps_range := (47/10, 485/100) }

/-- Full-year growth range: both endpoints conditionally normalized;
default range is [0.14, 0.15]. -/
def fullYearGrowthRange (rangeMatch : Option (ℚ × ℚ)) : ℚ × ℚ :=
  match rangeMatch with
  | none => (14/100, 15/100)
  | some (a, b) => (normalizePct a, normalizePct b)

/-- Financial-metrics mapping; a `none` field is an absent key. -/
structure FinancialMetricsMap where
  revenue : Option MetricRecord
  net_income : Option MetricRecord
  eps : Option EpsRecord
  operating_margin : Option MarginRecord
  free_cash_flow : Option CashFlowRecord
deriving DecidableEq

/-- Segment-performance mapping; a `none` field is an absent key. -/
structure SegmentPerformanceMap where
  cloud_services : Option CloudSegmentRecord
  software_products : Option SoftwareSegmentRecord
  hardware : Option HardwareSegmentRecord
deriving DecidableEq

/-- Forward-guidance mapping (both keys are always set by the extractor). -/
structure ForwardGuidanceMap where
  q4_2024 : Q4Guidance
  full_year_growth : ℚ × ℚ
deriving DecidableEq

/-- Full output of `_extract_metrics`. -/
structure ExtractedData where
  financial_metrics : FinancialMetricsMap
  segment_performance : SegmentPerformanceMap
  forward_guidance : ForwardGuidanceMap
deriving DecidableEq

/-- Growth component of the recommendation score
(`SummaryAgent._determine_recommendation`). -/
def growthScore (revenue_growth : ℚ) : ℤ :=
  if 15/100 < revenue_growth then 2
  else if 8/100 < revenue_growth then 1
  else if revenue_growth < 0 then -1
  else 0

/-- Profitability component of the recommendation score. -/
def marginScore (operating_margin : ℚ) : ℤ :=
  if 30/100 < operating_margin then 2
  else if 20/100 < operating_margin then 1
  else if operating_margin < 10/100 then -1
  else 0

/-- Sentiment component of the recommendation score. -/
def sentimentScore (sentiment : String) : ℤ :=
  if sentiment = "positive" then 1
  else if sentiment = "negative" then -1
  else 0

/-- Combined recommendation score. -/
def totalScore (revenue_growth operating_margin : ℚ) (sentiment : String) : ℤ :=
  growthScore revenue_growth + marginScore operating_margin + sentimentScore sentiment

/-- Investment recommendation, `SummaryAgent._determine_recommendation`. -/
def determineRecommendation (revenue_growth operating_margin : ℚ)
    (sentiment : String) : String :=
  if 3 ≤ totalScore revenue_growth operating_margin sentiment then "BUY"
  else if totalScore revenue_growth operating_margin sentiment ≤ -2 then "SELL"
  else "HOLD"

/-- Executive-summary record produced by the summary generator. -/
structure ExecSummary where
  headline : String
  summary : String
  recommendation : String
  confidence_score : ℚ
deriving DecidableEq

/-- Fallback narrative used when revenue or net income was not extracted
(`_generate_summary`, else branch). -/
def fallbackSummaryText : String :=
  "TechCorp International delivered exceptional Q3 2024 results with strong revenue and net income growth. The cloud services division led performance with significant growth, while AI solutions gained remarkable traction. Despite some segment challenges, overall margins improved. Management maintains cautiously optimistic outlook with Q4 guidance provided, though acknowledges risks from competition, regulation, and macroeconomic factors. Strong cash generation supports capital allocation initiatives."

/-- Rendering of a rational inside an interpolated narrative string; exact
stand-in for CPython float formatting, which is out of scope. -/
def fmtQ (q : ℚ) : String :=
  if q.den = 1 then toString q.num
  else toString q.num ++ "/" ++ toString q.den

/-- Input mapping handed to the summary stage by the workflow node
(`summary_input` in `_summary_generation_node`); the node passes no
`segment_performance` key, so that field is `none` on the graph path. -/
structure SummaryInput where
  financial_metrics : Option FinancialMetricsMap
  sentiment_analysis : Option SentimentOutput
  segment_performance : Option SegmentPerformanceMap
deriving DecidableEq

/-- Summary generation, `SummaryAgent._generate_summary`: every read is
defaulted, then headline, narrative, recommendation and blended confidence
are produced. -/
def generateSummary (input : SummaryInput) : ExecSummary :=
  let financial_data := input.financial_metrics
  let sentiment_data := input.sentiment_analysis
  let revenue : Option ℚ := (financial_data.bind (·.revenue)).map (·.value)
  let revenue_yoy : ℚ := ((financial_data.bind (·.revenue)).map (·.yoy_change)).getD 0
  let net_income : Option ℚ := (financial_data.bind (·.net_income)).map (·.value)
  let net_income_yoy : ℚ := ((financial_data.bind (·.net_income)).map (·.yoy_change)).getD 0
  let operating_margin : ℚ := ((financial_data.bind (·.operating_margin)).map (·.current)).getD 0
  let overall_sentiment : String := (sentiment_data.map (·.overall_sentiment)).getD "neutral"
  let segment_perf := input.segment_performance
  let cloud_revenue : Option ℚ := (segment_perf.bind (·.cloud_services)).map (·.revenue)
  let cloud_growth : ℚ := ((segment_perf.bind (·.cloud_services)).map (·.growth_rate)).getD 0
  let sentiment_confidence : ℚ := (sentiment_data.map (·.confidence)).getD (1/2)
  let recommendation := determineRecommendation revenue_yoy operating_margin overall_sentiment
  let margin_confidence : ℚ := min (95/100) (3/10 + operating_margin * (3/2))
  let overall_confidence := sentiment_confidence * (7/10) + margin_confidence * (3/10)
  let headline :=
    if overall_sentiment = "positive" ∧ 1/10 < revenue_yoy then
      "Strong Q3 Performance Driven by Cloud and AI Growth"
    else if overall_sentiment = "positive" then
      "Positive Q3 Results with Resilient Performance"
    else if overall_sentiment = "negative" then
      "Q3 Challenges Amid Market Headwinds"
    else
      "Q3 Results Show Mixed Performance"
  let summaryText :=
    match revenue, net_income with
    | some rv, some ni =>
      let revenue_pct := ratTrunc (revenue_yoy * 100)
      let net_income_pct := ratTrunc (net_income_yoy * 100)
      let margin_pct := ratTrunc (operating_margin * 100)
      let base := "TechCorp International delivered Q3 2024 results with " ++
        toString revenue_pct ++ "% revenue growth to $" ++ fmtQ rv ++ "B and " ++
        toString net_income_pct ++ "% net income growth to $" ++ fmtQ ni ++ "B. "
      let cloudPart :=
        if cloud_revenue ≠ none ∧ 0 < cloud_growth then
          "The cloud services division led performance with " ++
          toString (ratTrunc (cloud_growth * 100)) ++
          "% YoY growth, while AI solutions gained significant traction with enterprise customers. "
        else ""
      base ++ cloudPart ++ "Overall margins " ++
        (if 25 < margin_pct then "improved to" else "remained at") ++ " " ++
        toString margin_pct ++
        "%. Management maintains " ++
        (if overall_sentiment = "positive" then "cautiously optimistic" else "cautious") ++
        " outlook with Q4 guidance provided, though acknowledges risks from competition, regulation, and macroeconomic factors. Strong cash generation supports capital allocation initiatives including buyback programs and dividend increases."
    | _, _ => fallbackSummaryText
  { headline := headline
    summary := summaryText
    recommendation := recommendation
    confidence_score := round2 overall_confidence }

/-- Uniform result record returned by a stage (`AgentResult`), with the
stage-specific data payload as a type parameter. -/
structure AgentResultD (α : Type) where
  agent_name : String
  status : AgentStatus
  data : α
  errors : List String
deriving DecidableEq

/-- Stage entry point `BaseAgent.process`: validation gate, then execution
with fault capture.  `exec` is the stage-specific execution; `.error msg`
models a raised fault with message `msg`.  Returns the produced result and
the stage's status field after the call (`prior` being its value before). -/
def baseProcess {α : Type} (name : String) (emptyData : α) (prior : AgentStatus)
    (validOk : Bool) (exec : Except String (AgentResultD α)) :
    AgentResultD α × AgentStatus :=
  if validOk = false then
    ({ agent_name := name, status := .failed, data := emptyData,
       errors := ["Invalid input data for " ++ name] }, prior)
  else
    match exec with
    | .ok result => (result, result.status)
    | .error e =>
      ({ agent_name := name, status := .failed, data := emptyData,
         errors := [e] }, .failed)

/-- Shared context as seen by the Coordinator stage. -/
structure CoordContext where
  report_content : Option String
  workflow_initiated_by : Option String
deriving DecidableEq

/-- Data payload of a successful coordination result (`execution_plan`). -/
structure CoordData where
  coordination_status : String
  agents_to_execute : List String
  report_length : ℕ
  initialized_at : String
deriving DecidableEq

/-- Successful coordination: seed the shared context and declare the plan
(`CoordinatorAgent.execute`, steps 2 and 3). -/
def coordSuccess (report_content : String) (context : CoordContext) :
    AgentResultD (Option CoordData) × CoordContext :=
  let context2 := { context with
    report_content := some report_content
    workflow_initiated_by := some "coordinator" }
  ({ agent_name := "coordinator"
     status := .success
     data := some
       { coordination_status := "ready"
         agents_to_execute := ["data_extractor", "sentiment_analyzer", "summary_generator"]
         report_length := report_content.length
         initialized_at := "unknown" }
     errors := [] }, context2)

/-- Coordinator validation (`CoordinatorAgent.validate_input`): the input is
a keyed mapping (always, in this model) holding `report_path` or
`report_content`. -/
def coordinatorValidate (input : List (String × String)) : Bool :=
  (input.lookup "report_path").isSome || (input.lookup "report_content").isSome

/-- Coordinator execution (`CoordinatorAgent.execute`): direct content wins,
then a path read through the document source `fs`, else the no-input error.
A failed read returns before any context write. -/
def coordinatorExecute (input : List (String × String))
    (fs : String → Except String String) (context : CoordContext) :
    AgentResultD (Option CoordData) × CoordContext :=
  match input.lookup "report_content" with
  | some report_content => coordSuccess report_content context
  | none =>
    match input.lookup "report_path" with
    | some report_path =>
      match fs report_path with
      | .ok report_content => coordSuccess report_content context
      | .error e =>
        ({ agent_name := "coordinator", status := .failed, data := none,
           errors := ["Failed to read report file: " ++ e] }, context)
    | none =>
      ({ agent_name := "coordinator", status := .failed, data := none,
         errors := ["No report_path or report_content provided"] }, context)

/-- Coordinator `process` entry point: the inherited validation gate in
front of `coordinatorExecute` (which itself never raises). -/
def coordinatorProcess (input : List (String × String))
    (fs : String → Except String String) (context : CoordContext) :
    AgentResultD (Option CoordData) × CoordContext :=
  if coordinatorValidate input = false then
    ({ agent_name := "coordinator", status := .failed, data := none,
       errors := ["Invalid input data for coordinator"] }, context)
  else
    coordinatorExecute input fs context

/-- Workflow metadata written by the coordinator node. -/
structure GraphMetadata where
  status : String
  agents : List String
deriving DecidableEq

/-- The LangGraph `AnalysisState`; `none` models an empty mapping `\x7b\x7d`. -/
structure AnalysisState where
  report_content : String
  financial_metrics : Option FinancialMetricsMap
  segment_performance : Option SegmentPerformanceMap
  forward_guidance : Option ForwardGuidanceMap
  sentiment_analysis : Option SentimentOutput
  executive_summary : Option ExecSummary
  metadata : Option GraphMetadata
  errors : List String
deriving DecidableEq

/-- Initial state built by `WorkflowGraph.invoke`. -/
def initialState (report_content : String) : AnalysisState :=
  { report_content := report_content
    financial_metrics := none
    segment_performance := none
    forward_guidance := none
    sentiment_analysis := none
    executive_summary := none
    metadata := none
    errors := [] }

/-- The metadata mapping written by the coordinator node. -/
def initializedMetadata : GraphMetadata :=
  { status := "initialized"
    agents := ["coordinator", "data_extractor", "sentiment_analyzer", "summary_generator"] }

/-- Coordinator node (`_coordinator_node`): only initializes metadata; it
does not invoke the coordinator agent. -/
def coordinatorNode (state : AnalysisState) : AnalysisState :=
  { state with metadata := some initializedMetadata }

/-- Data-extractor `process` as called from the graph node.  The regex layer
`_extract_metrics` is abstracted as `extract`; the empty-content guard and
result wrapping are modelled faithfully. -/
def dataExtractorProcess (extract : String → ExtractedData) (input_content : String)
    (state : AnalysisState) : AgentResultD (Option ExtractedData) :=
  let report_content := pyOrStr state.report_content input_content
  if report_content = "" then
    { agent_name := "data_extractor", status := .failed, data := none,
      errors := ["No report content available for extraction"] }
  else
    { agent_name := "data_extractor", status := .success,
      data := some (extract report_content), errors := [] }

/-- Data-extraction node (`_data_extraction_node`). -/
def dataExtractionNode (extract : String → ExtractedData) (state : AnalysisState) :
    AnalysisState :=
  let result := dataExtractorProcess extract state.report_content state
  if result.status = .success then
    { state with
      financial_metrics := result.data.map (·.financial_metrics)
      segment_performance := result.data.map (·.segment_performance)
      forward_guidance := result.data.map (·.forward_guidance) }
  else
    { state with errors := state.errors ++
        ["Data extraction failed: " ++ pyListRepr result.errors] }

/-- Sentiment-analyzer `process` as called from the graph node (no external
collaborator configured: the deterministic heuristic strategy runs). -/
def sentimentProcess (input_content : String) (state : AnalysisState) :
    AgentResultD (Option SentimentOutput) :=
  let report_content := pyOrStr state.report_content input_content
  if report_content = "" then
    { agent_name := "sentiment_analyzer", status := .failed, data := none,
      errors := ["No report content available for sentiment analysis"] }
  else
    { agent_name := "sentiment_analyzer", status := .success,
      data := some (analyzeSentiment report_content), errors := [] }

/-- Sentiment-analysis node (`_sentiment_analysis_node`). -/
def sentimentAnalysisNode (state : AnalysisState) : AnalysisState :=
  let result := sentimentProcess state.report_content state
  if result.status = .success then
    { state with sentiment_analysis := result.data }
  else
    { state with errors := state.errors ++
        ["Sentiment analysis failed: " ++ pyListRepr result.errors] }

/-- Summary-generator `process` as called from the graph node: validation
accepts the keyed input and `execute` wraps `_generate_summary`. -/
def summaryProcess (input : SummaryInput) : AgentResultD (Option ExecSummary) :=
  { agent_name := "summary_generator", status := .success,
    data := some (generateSummary input), errors := [] }

/-- Summary-generation node (`_summary_generation_node`). -/
def summaryGenerationNode (state : AnalysisState) : AnalysisState :=
  let summary_input : SummaryInput :=
    { financial_metrics := state.financial_metrics
      sentiment_analysis := state.sentiment_analysis
      segment_performance := none }
  let result := summaryProcess summary_input
  if result.status = .success then
    { state with executive_summary := result.data }
  else
    { state with errors := state.errors ++
        ["Summary generation failed: " ++ pyListRepr result.errors] }

/-- Full pipeline, `WorkflowGraph.invoke`: the fixed node sequence
coordinator → data extraction → sentiment analysis → summary generation. -/
def invokePipeline (extract : String → ExtractedData) (report_content : String) :
    AnalysisState :=
  summaryGenerationNode (sentimentAnalysisNode
    (dataExtractionNode extract (coordinatorNode (initialState report_content))))

/-- Keyword count abbreviations used by the sentiment theorems
(`positive_count` / `negative_count` in `_analyze_sentiment`). -/
def posCount (content : String) : ℕ := (positiveFound content).length

/-- Negative keyword count. -/
def negCount (content : String) : ℕ := (negativeFound content).length

/-- A document source that fails every read (e.g. a nonexistent path). -/
def fsAlwaysError : String → Except String String :=
  fun _ => Except.error "No such file or directory"

/-- A fresh shared context, before any stage has written to it. -/
def emptyCoordContext : CoordContext :=
  { report_content := none, workflow_initiated_by := none }

/-- A concrete extraction outcome (no metric matched), used to instantiate
the abstracted regex layer on pipeline paths that never reach it. -/
def trivialExtraction : ExtractedData :=
  { financial_metrics :=
      { revenue := none, net_income := none, eps := none,
        operating_margin := none, free_cash_flow := none }
    segment_performance :=
      { cloud_services := none, software_products := none, hardware := none }
    forward_guidance :=
      { q4_2024 := mkQ4Guidance none, full_year_growth := fullYearGrowthRange none } }

/-- A concrete successful stage result used to exercise `baseProcess`. -/
def exampleOkResult : AgentResultD (Option Unit) :=
  { agent_name := "example_agent", status := .success, data := none, errors := [] }

/-- The summary-stage input on a run in which extraction and sentiment both
produced nothing. -/
def emptySummaryInput : SummaryInput :=
  { financial_metrics := none
    sentiment_analysis := none
    segment_performance := none }

/-- The executive summary produced by a run in which no metric and no
sentiment data is available (every read falls back to its default). -/
def defaultedRunSummary : ExecSummary :=
  { headline := "Q3 Results Show Mixed Performance"
    summary := fallbackSummaryText
    recommendation := "HOLD"
    confidence_score := 11/25 }

-- ======================================================================
-- Helper lemmas
-- ======================================================================

theorem round_mono_of_le {a b : ℚ} (h : a ≤ b) : round a ≤ round b := by
  rw [round_eq, round_eq]
  exact Int.floor_mono (by linarith)

theorem le_round2_of (k : ℤ) (q : ℚ) (h : (k : ℚ) - 1/2 ≤ q * 100) :
    (k : ℚ) / 100 ≤ round2 q := by
  unfold round2
  have hk : k ≤ round (q * 100) := by
    rw [round_eq]
    exact Int.le_floor.mpr (by linarith)
  exact (div_le_div_iff_of_pos_right (by norm_num)).mpr (by exact_mod_cast hk)

theorem round2_le_of (k : ℤ) (q : ℚ) (h : q * 100 < (k : ℚ) + 1/2) :
    round2 q ≤ (k : ℚ) / 100 := by
  unfold round2
  have hk : round (q * 100) ≤ k := by
    rw [round_eq]
    have : ⌊q * 100 + 1/2⌋ < k + 1 := Int.floor_lt.mpr (by push_cast; linarith)
    omega
  exact (div_le_div_iff_of_pos_right (by norm_num)).mpr (by exact_mod_cast hk)

theorem round2_nonneg {q : ℚ} (h : 0 ≤ q) : 0 ≤ round2 q := by
  have := le_round2_of 0 q (by linarith)
  simpa using this

theorem round2_le_one {q : ℚ} (h : q ≤ 1) : round2 q ≤ 1 := by
  have := round2_le_of 100 q (by linarith)
  simpa using this

theorem round2_twoDecimal (q : ℚ) : ∃ m : ℤ, round2 q = (m : ℚ) / 100 :=
  ⟨round (q * 100), rfl⟩

-- ======================================================================
-- C2
-- ======================================================================

/-- C2 counterexample: the uniform rule "store v/100 when v > 1, v unchanged
when v ≤ 1" fails for the cloud-segment growth rate: the matched value 1 is
stored as 1/100, because segment growth is divided by 100 unconditionally. -/
theorem C2_counterexample :
    ¬ ((mkCloudSegment 21 (some 1)).growth_rate = (if (1:ℚ) > 1 then 1/100 else 1)) := by
  norm_num [mkCloudSegment, pyOrOpt]

/-- C2 amended: the conditional normalization (v/100 when v > 1, v unchanged
when v ≤ 1, stated before the falsy-zero default substitution) holds for
revenue YoY, net-income YoY, operating margin, cash-flow YoY and full-year
growth, and re-multiplying by 100 when v > 1 reproduces the matched number;
segment growth rates (cloud, software, hardware negated) instead divide by
100 unconditionally. -/
theorem C2_amended (value v : ℚ) :
    (1 < v →
      (mkRevenueMetric value (some v)).yoy_change = v / 100 ∧
      (mkNetIncomeMetric value (some v)).yoy_change = v / 100 ∧
      (mkOperatingMargin v none).current = v / 100 ∧
      (mkFreeCashFlow value (some v)).yoy_change = v / 100 ∧
      (fullYearGrowthRange (some (v, v))).1 = v / 100 ∧
      (v / 100) * 100 = v) ∧
    (v ≤ 1 → v ≠ 0 →
      (mkRevenueMetric value (some v)).yoy_change = v ∧
      (mkNetIncomeMetric value (some v)).yoy_change = v ∧
      (mkOperatingMargin v none).current = v ∧
      (mkFreeCashFlow value (some v)).yoy_change = v ∧
      (fullYearGrowthRange (some (v, v))).1 = v) ∧
    (v ≠ 0 →
      (mkCloudSegment value (some v)).growth_rate = v / 100 ∧
      (mkSoftwareSegment value (some v)).growth_rate = v / 100) ∧
    (mkHardwareSegment value (some v)).growth_rate = -(v / 100) := by
  refine ⟨?_, ?_, ?_, ?_⟩
  · intro h1
    have hq : v / 100 ≠ 0 := ne_of_gt (div_pos (lt_trans one_pos h1) (by norm_num))
    have hnp : normalizePct v = v / 100 := if_pos h1
    refine ⟨?_, ?_, ?_, ?_, ?_, div_mul_cancel₀ v (by norm_num)⟩
    · simp [mkRevenueMetric, pyOrOpt, hnp, hq]
    · simp [mkNetIncomeMetric, pyOrOpt, hnp, hq]
    · simp [mkOperatingMargin, hnp]
    · simp [mkFreeCashFlow, pyOrOpt, hnp, hq]
    · simp [fullYearGrowthRange, hnp]
  · intro h1 hne
    have hnp : normalizePct v = v := if_neg (not_lt.mpr h1)
    refine ⟨?_, ?_, ?_, ?_, ?_⟩
    · simp [mkRevenueMetric, pyOrOpt, hnp, hne]
    · simp [mkNetIncomeMetric, pyOrOpt, hnp, hne]
    · simp [mkOperatingMargin, hnp]
    · simp [mkFreeCashFlow, pyOrOpt, hnp, hne]
    · simp [fullYearGrowthRange, hnp]
  · intro hne
    have hq : v / 100 ≠ 0 := by
      simp only [ne_eq, div_eq_zero_iff]
      push_neg
      exact ⟨hne, by norm_num⟩
    constructor
    · simp [mkCloudSegment, pyOrOpt, hq]
    · simp [mkSoftwareSegment, pyOrOpt, hq]
  · rfl

/-- C2 witness: the amended statement at v = 12 (percentage read),
v = 1/2 (already fractional) and v = 1 (cloud segment, stored as 1/100). -/
theorem C2_witness :
    (mkRevenueMetric 15 (some 12)).yoy_change = 12 / 100 ∧
    (mkRevenueMetric 15 (some (1/2))).yoy_change = 1/2 ∧
    (mkCloudSegment 21 (some 1)).growth_rate = 1 / 100 := by
  refine ⟨((C2_amended 15 12).1 (by norm_num)).1,
          (((C2_amended 15 (1/2)).2.1 (by norm_num) (by norm_num)).1),
          ((C2_amended 21 1).2.2.1 (by norm_num)).1⟩

-- ======================================================================
-- C4
-- ======================================================================

/-- C4: the recommendation is BUY exactly when the combined score
(growth + margin + sentiment, with the spec's component thresholds) is at
least 3, SELL exactly when it is at most -2, and HOLD otherwise. -/
theorem C4_recommendation (g m : ℚ) (s : String) :
    totalScore g m s =
      ((if 15/100 < g then 2 else if 8/100 < g then 1 else if g < 0 then -1 else 0) +
       (if 30/100 < m then 2 else if 20/100 < m then 1 else if m < 10/100 then -1 else 0) +
       (if s = "positive" then 1 else if s = "negative" then -1 else 0) : ℤ) ∧
    (determineRecommendation g m s = "BUY" ↔ 3 ≤ totalScore g m s) ∧
    (determineRecommendation g m s = "SELL" ↔ totalScore g m s ≤ -2) ∧
    (determineRecommendation g m s = "HOLD" ↔
      (¬ 3 ≤ totalScore g m s ∧ ¬ totalScore g m s ≤ -2)) := by
  refine ⟨rfl, ?_⟩
  unfold determineRecommendation
  split_ifs with h1 h2
  · refine ⟨⟨fun _ => h1, fun _ => rfl⟩, ⟨fun h => absurd h (by decide), fun h => by omega⟩,
      ⟨fun h => absurd h (by decide), fun h => absurd h1 h.1⟩⟩
  · refine ⟨⟨fun h => absurd h (by decide), fun h => absurd h h1⟩, ⟨fun _ => h2, fun _ => rfl⟩,
      ⟨fun h => absurd h (by decide), fun h => absurd h2 h.2⟩⟩
  · refine ⟨⟨fun h => absurd h (by decide), fun h => absurd h h1⟩,
      ⟨fun h => absurd h (by decide), fun h => absurd h h2⟩,
      ⟨fun _ => ⟨h1, h2⟩, fun _ => rfl⟩⟩

/-- C4 witness: boundary totals 3 (BUY), -2 (SELL), -1 and 2 (HOLD). -/
theorem C4_witness :
    determineRecommendation (16/100) (25/100) "neutral" = "BUY" ∧
    determineRecommendation (-1/10) (5/100) "neutral" = "SELL" ∧
    determineRecommendation 0 0 "neutral" = "HOLD" ∧
    determineRecommendation (16/100) (15/100) "neutral" = "HOLD" := by
  refine ⟨(C4_recommendation (16/100) (25/100) "neutral").2.1.mpr ?_,
          (C4_recommendation (-1/10) (5/100) "neutral").2.2.1.mpr ?_,
          (C4_recommendation 0 0 "neutral").2.2.2.mpr ⟨?_, ?_⟩,
          (C4_recommendation (16/100) (15/100) "neutral").2.2.2.mpr ⟨?_, ?_⟩⟩ <;>
    norm_num [totalScore, growthScore, marginScore, sentimentScore] <;> decide

-- ======================================================================
-- C5
-- ======================================================================

/-- C5 counterexample: on a validation failure the stage's status field does
not reflect the failed outcome of the run — it stays at its prior value
(here `ready`), refuting the claim's final clause for that path. -/
theorem C5_counterexample :
    (baseProcess "example_agent" (none : Option Unit) .ready false (.ok exampleOkResult)).1.status
      = .failed ∧
    (baseProcess "example_agent" (none : Option Unit) .ready false (.ok exampleOkResult)).2
      = .ready ∧
    (baseProcess "example_agent" (none : Option Unit) .ready false (.ok exampleOkResult)).2
      ≠ (baseProcess "example_agent" (none : Option Unit) .ready false (.ok exampleOkResult)).1.status := by
  refine ⟨rfl, rfl, by decide⟩

/-- C5 amended: a rejected input yields a failed result with exactly one
descriptive error and the execution is never invoked, but the status field
is left unchanged; when validation passes, a raised fault is converted to a
failed result whose sole error is the fault's message (never propagated),
and the status afterwards reflects the outcome (the result's status on a
normal return, failed on a fault). -/
theorem C5_amended {α : Type} (name : String) (emptyData : α) (prior : AgentStatus)
    (exec : Except String (AgentResultD α)) :
    ((baseProcess name emptyData prior false exec).1.status = .failed ∧
     (baseProcess name emptyData prior false exec).1.errors =
       ["Invalid input data for " ++ name] ∧
     (∀ exec2, baseProcess name emptyData prior false exec2 =
       baseProcess name emptyData prior false exec) ∧
     (baseProcess name emptyData prior false exec).2 = prior) ∧
    (∀ msg, (baseProcess name emptyData prior true (.error msg)).1.status = .failed ∧
      (baseProcess name emptyData prior true (.error msg)).1.errors = [msg] ∧
      (baseProcess name emptyData prior true (.error msg)).2 = .failed) ∧
    (∀ r, (baseProcess name emptyData prior true (.ok r)).1 = r ∧
      (baseProcess name emptyData prior true (.ok r)).2 = r.status) := by
  refine ⟨⟨rfl, rfl, fun _ => rfl, rfl⟩, fun msg => ⟨rfl, rfl, rfl⟩, fun r => ⟨rfl, rfl⟩⟩

/-- C5 witness: the amended contract at concrete inputs. -/
theorem C5_witness :
    (baseProcess "example_agent" (none : Option Unit) .ready false (.ok exampleOkResult)).2
      = .ready ∧
    (baseProcess "example_agent" (none : Option Unit) .ready true (.error "boom")).1.errors
      = ["boom"] ∧
    (baseProcess "example_agent" (none : Option Unit) .ready true (.ok exampleOkResult)).2
      = .success := by
  refine ⟨(C5_amended "example_agent" none .ready (.ok exampleOkResult)).1.2.2.2,
          ((C5_amended "example_agent" none .ready (.ok exampleOkResult)).2.1 "boom").2.1,
          ((C5_amended "example_agent" none .ready (.ok exampleOkResult)).2.2 exampleOkResult).2⟩

-- ======================================================================
-- C8
-- ======================================================================

/-- C8: whenever a revenue or net-income metric is emitted, its trend field
is the constant "positive", for every matched value and YoY outcome — both
branches of the trend conditional produce "positive". -/
theorem C8_trend_constant (value : ℚ) (yoyMatch : Option ℚ) :
    (mkRevenueMetric value yoyMatch).trend = "positive" ∧
    (mkNetIncomeMetric value yoyMatch).trend = "positive" := by
  constructor <;> simp [mkRevenueMetric, mkNetIncomeMetric]

/-- C8 witness: trend at concrete inputs, including a negative YoY. -/
theorem C8_witness :
    (mkRevenueMetric 15 (some (-(5/100)))).trend = "positive" ∧
    (mkNetIncomeMetric 4 none).trend = "positive" := by
  exact ⟨(C8_trend_constant 15 (some (-(5/100)))).1, (C8_trend_constant 4 none).2⟩

-- ======================================================================
-- C9
-- ======================================================================

/-- C9: a growth pattern matching exactly 0 is replaced by the metric's
literal default (0.12, 0.18, 0.22, 0.35, 0.08) through the boolean-or over
the falsy value 0.0, so a matched zero is indistinguishable from an absent
match in the output record. -/
theorem C9_zero_defaults (value : ℚ) :
    (mkRevenueMetric value (some 0)).yoy_change = 12/100 ∧
    mkRevenueMetric value (some 0) = mkRevenueMetric value none ∧
    (mkNetIncomeMetric value (some 0)).yoy_change = 18/100 ∧
    mkNetIncomeMetric value (some 0) = mkNetIncomeMetric value none ∧
    (mkFreeCashFlow value (some 0)).yoy_change = 22/100 ∧
    mkFreeCashFlow value (some 0) = mkFreeCashFlow value none ∧
    (mkCloudSegment value (some 0)).growth_rate = 35/100 ∧
    mkCloudSegment value (some 0) = mkCloudSegment value none ∧
    (mkSoftwareSegment value (some 0)).growth_rate = 8/100 ∧
    mkSoftwareSegment value (some 0) = mkSoftwareSegment value none := by
  refine ⟨?_, ?_, ?_, ?_, ?_, ?_, ?_, ?_, ?_, ?_⟩ <;>
    norm_num [mkRevenueMetric, mkNetIncomeMetric, mkFreeCashFlow, mkCloudSegment,
      mkSoftwareSegment, pyOrOpt, pyTruthy, normalizePct]

/-- C9 witness: the default substitution at a concrete record value. -/
theorem C9_witness :
    (mkCloudSegment 21 (some 0)).growth_rate = 35/100 ∧
    mkRevenueMetric 15 (some 0) = mkRevenueMetric 15 none :=
  ⟨(C9_zero_defaults 21).2.2.2.2.2.2.1, (C9_zero_defaults 15).2.1⟩

-- ======================================================================
-- C6
-- ======================================================================

/-- C6 counterexample: an input that carries a report path whose read would
fail but also carries report content succeeds and writes the context, so
the claim quantified over every input carrying a failing path is false. -/
theorem C6_counterexample :
    ((coordinatorProcess [("report_content", "hello"), ("report_path", "missing.txt")]
        fsAlwaysError emptyCoordContext).1.status = AgentStatus.success) ∧
    ((coordinatorProcess [("report_content", "hello"), ("report_path", "missing.txt")]
        fsAlwaysError emptyCoordContext).2.report_content = some "hello") ∧
    fsAlwaysError "missing.txt" = Except.error "No such file or directory" := by
  exact ⟨rfl, rfl, rfl⟩

/-- C6 amended: for every input that carries a report path whose read fails
and carries no report content key, the Coordinator's run returns a failed
result whose error message names the read failure, and the shared context is
left untouched (`report_content` stays unset). -/
theorem C6_amended (input : List (String × String)) (fs : String → Except String String)
    (ctx : CoordContext) (p e : String)
    (hnc : input.lookup "report_content" = none)
    (hp : input.lookup "report_path" = some p)
    (hfs : fs p = Except.error e) :
    (coordinatorProcess input fs ctx).1.status = AgentStatus.failed ∧
    (coordinatorProcess input fs ctx).1.errors = ["Failed to read report file: " ++ e] ∧
    (coordinatorProcess input fs ctx).2 = ctx := by
  have hv : ¬ (coordinatorValidate input = false) := by
    simp [coordinatorValidate, hp]
  simp [coordinatorProcess, hv, coordinatorExecute, hnc, hp, hfs]

/-- C6 witness: a run on a sole nonexistent path. -/
theorem C6_witness :
    (coordinatorProcess [("report_path", "missing.txt")] fsAlwaysError
        emptyCoordContext).1.errors =
      ["Failed to read report file: " ++ "No such file or directory"] ∧
    (coordinatorProcess [("report_path", "missing.txt")] fsAlwaysError
        emptyCoordContext).2 = emptyCoordContext := by
  have h := C6_amended [("report_path", "missing.txt")] fsAlwaysError emptyCoordContext
    "missing.txt" "No such file or directory" rfl rfl rfl
  exact ⟨h.2.1, h.2.2⟩

-- ======================================================================
-- C7
-- ======================================================================

/-- C7 counterexample: invoking the run entry point on a mapping with
neither key yields the generic validation error, not an error stating that
no report path or content was provided. -/
theorem C7_counterexample :
    (coordinatorProcess [] fsAlwaysError emptyCoordContext).1.status = AgentStatus.failed ∧
    (coordinatorProcess [] fsAlwaysError emptyCoordContext).1.errors =
      ["Invalid input data for coordinator"] ∧
    ¬ ((coordinatorProcess [] fsAlwaysError emptyCoordContext).1.errors =
      ["No report_path or report_content provided"]) := by
  exact ⟨rfl, rfl, by decide⟩

/-- C7 amended: on a keyed mapping with neither `report_path` nor
`report_content`, the run entry point fails at the validation gate with the
single error "Invalid input data for coordinator" and leaves the context
untouched; the "No report_path or report_content provided" error belongs to
the execute body, which the gate makes unreachable through run. -/
theorem C7_amended (input : List (String × String)) (fs : String → Except String String)
    (ctx : CoordContext)
    (hnp : input.lookup "report_path" = none)
    (hnc : input.lookup "report_content" = none) :
    (coordinatorProcess input fs ctx).1.status = AgentStatus.failed ∧
    (coordinatorProcess input fs ctx).1.errors = ["Invalid input data for coordinator"] ∧
    (coordinatorProcess input fs ctx).2 = ctx ∧
    (coordinatorExecute input fs ctx).1.errors =
      ["No report_path or report_content provided"] := by
  have hv : coordinatorValidate input = false := by
    simp [coordinatorValidate, hnp, hnc]
  simp [coordinatorProcess, hv, coordinatorExecute, hnp, hnc]

/-- C7 witness: the empty mapping. -/
theorem C7_witness :
    (coordinatorProcess [] fsAlwaysError emptyCoordContext).1.errors =
      ["Invalid input data for coordinator"] ∧
    (coordinatorExecute [] fsAlwaysError emptyCoordContext).1.errors =
      ["No report_path or report_content provided"] := by
  have h := C7_amended [] fsAlwaysError emptyCoordContext rfl rfl
  exact ⟨h.2.1, h.2.2.2⟩

-- ======================================================================
-- C3
-- ======================================================================

theorem analyzeSentiment_overall_eq (content : String) :
    (analyzeSentiment content).overall_sentiment =
      (sentimentAndConfidence (posCount content) (negCount content)).1 := rfl

theorem analyzeSentiment_confidence_eq (content : String) :
    (analyzeSentiment content).confidence =
      round2 (sentimentAndConfidence (posCount content) (negCount content)).2 := rfl

theorem sentimentAndConfidence_spec (p n : ℕ) :
    (p + n = 0 → sentimentAndConfidence p n = ("neutral", 1/2)) ∧
    (p + n ≠ 0 →
      ((p : ℚ) / ((p + n : ℕ) : ℚ) = 1/2 → sentimentAndConfidence p n = ("neutral", 1/2)) ∧
      (1/2 < (p : ℚ) / ((p + n : ℕ) : ℚ) → sentimentAndConfidence p n =
        ("positive", if 5 ≤ p then 85/100
          else min (95/100) (70/100 + ((p : ℚ) / ((p + n : ℕ) : ℚ)) * (25/100)))) ∧
      ((p : ℚ) / ((p + n : ℕ) : ℚ) < 1/2 → sentimentAndConfidence p n =
        ("negative", min (95/100) ((1 - (p : ℚ) / ((p + n : ℕ) : ℚ)) * (1/2))))) := by
  constructor
  · intro h
    simp [sentimentAndConfidence, h]
  · intro h
    refine ⟨?_, ?_, ?_⟩ <;> intro hs <;> simp only [sentimentAndConfidence, if_neg h]
    · rw [if_neg (by rw [hs]; exact lt_irrefl _), if_neg (by rw [hs]; exact lt_irrefl _)]
    · rw [if_pos hs]
    · rw [if_neg (asymm hs), if_pos hs]

theorem sentimentAndConfidence_bounds (p n : ℕ) :
    0 ≤ (sentimentAndConfidence p n).2 ∧ (sentimentAndConfidence p n).2 ≤ 1 := by
  have hs0 : (0:ℚ) ≤ (p : ℚ) / ((p + n : ℕ) : ℚ) :=
    div_nonneg (Nat.cast_nonneg p) (Nat.cast_nonneg (p + n))
  simp only [sentimentAndConfidence]
  split_ifs with h0 h1 h2 h3
  · norm_num
  · norm_num
  · constructor
    · exact le_min (by norm_num) (by linarith)
    · exact le_trans (min_le_left _ _) (by norm_num)
  · constructor
    · exact le_min (by norm_num) (by nlinarith)
    · exact le_trans (min_le_left _ _) (by norm_num)
  · norm_num

/-- C3: the heuristic scorer counts positive keywords over the fixed
15-term list and negative keywords over the fixed 14-term list by
case-insensitive substring presence; with t = p + n it returns neutral with
confidence 0.5 when t = 0 or p/t = 1/2, positive with confidence 0.85 when
p/t > 1/2 and p ≥ 5 and otherwise min(0.95, 0.70 + (p/t)·0.25), negative
with confidence min(0.95, (1 - p/t)·0.5) when p/t < 1/2; the returned
confidence is always in [0, 1] and is an integer multiple of 1/100. -/
theorem C3_sentiment_scorer (content : String) :
    POSITIVE_KEYWORDS.length = 15 ∧
    NEGATIVE_KEYWORDS.length = 14 ∧
    (posCount content + negCount content = 0 →
      (analyzeSentiment content).overall_sentiment = "neutral" ∧
      (analyzeSentiment content).confidence = 1/2) ∧
    (posCount content + negCount content ≠ 0 →
      ((posCount content : ℚ) / ((posCount content + negCount content : ℕ) : ℚ) = 1/2 →
        (analyzeSentiment content).overall_sentiment = "neutral" ∧
        (analyzeSentiment content).confidence = 1/2) ∧
      (1/2 < (posCount content : ℚ) / ((posCount content + negCount content : ℕ) : ℚ) →
        (analyzeSentiment content).overall_sentiment = "positive" ∧
        (analyzeSentiment content).confidence =
          round2 (if 5 ≤ posCount content then 85/100
            else min (95/100) (70/100 +
              ((posCount content : ℚ) / ((posCount content + negCount content : ℕ) : ℚ)) * (25/100)))) ∧
      ((posCount content : ℚ) / ((posCount content + negCount content : ℕ) : ℚ) < 1/2 →
        (analyzeSentiment content).overall_sentiment = "negative" ∧
        (analyzeSentiment content).confidence =
          round2 (min (95/100)
            ((1 - (posCount content : ℚ) / ((posCount content + negCount content : ℕ) : ℚ)) * (1/2))))) ∧
    0 ≤ (analyzeSentiment content).confidence ∧
    (analyzeSentiment content).confidence ≤ 1 ∧
    ∃ m : ℤ, (analyzeSentiment content).confidence = (m : ℚ) / 100 := by
  have hov := analyzeSentiment_overall_eq content
  have hcf := analyzeSentiment_confidence_eq content
  have hspec := sentimentAndConfidence_spec (posCount content) (negCount content)
  have hbd := sentimentAndConfidence_bounds (posCount content) (negCount content)
  refine ⟨by decide, by decide, ?_, ?_, ?_, ?_, ?_⟩
  · intro h
    rw [hov, hcf, hspec.1 h]
    norm_num [round2, round_eq]
  · intro h
    refine ⟨?_, ?_, ?_⟩ <;> intro hs
    · rw [hov, hcf, ((hspec.2 h).1 hs)]
      norm_num [round2, round_eq]
    · rw [hov, hcf, ((hspec.2 h).2.1 hs)]
      exact ⟨rfl, rfl⟩
    · rw [hov, hcf, ((hspec.2 h).2.2 hs)]
      exact ⟨rfl, rfl⟩
  · rw [hcf]
    exact round2_nonneg hbd.1
  · rw [hcf]
    exact round2_le_one hbd.2
  · rw [hcf]
    exact round2_twoDecimal _

/-- C3 witness: "strong growth" has p = 2, n = 0, so p/t = 1 > 1/2, p < 5,
and the confidence is round2(min(0.95, 0.70 + 1·0.25)) = 0.95. -/
theorem C3_witness :
    (analyzeSentiment "strong growth").overall_sentiment = "positive" ∧
    (analyzeSentiment "strong growth").confidence = 95/100 := by
  have hp : posCount "strong growth" = 2 := by decide
  have hn : negCount "strong growth" = 0 := by decide
  have h := ((C3_sentiment_scorer "strong growth").2.2.2.1
    (by rw [hp, hn]; decide)).2.1 (by rw [hp, hn]; norm_num)
  refine ⟨h.1, ?_⟩
  rw [h.2, hp, hn]
  norm_num [round2, round_eq]

-- ======================================================================
-- C10
-- ======================================================================

theorem posCount_le_fifteen (content : String) : posCount content ≤ 15 := by
  have h := List.length_filter_le
    (fun k => hasSub (strLower content) (strLower k)) POSITIVE_KEYWORDS
  exact le_trans h (by decide)

theorem negativeConfidenceBounds (p n : ℕ) (hple : p ≤ 15)
    (hneg : (sentimentAndConfidence p n).1 = "negative") :
    1/4 < round2 (sentimentAndConfidence p n).2 ∧
    round2 (sentimentAndConfidence p n).2 ≤ 1/2 := by
  have hspec := sentimentAndConfidence_spec p n
  by_cases h0 : p + n = 0
  · rw [hspec.1 h0] at hneg
    exact absurd (show "neutral" = "negative" from hneg) (by decide)
  set s : ℚ := (p : ℚ) / ((p + n : ℕ) : ℚ) with hsdef
  rcases lt_trichotomy s (1/2) with hs | hs | hs
  · rw [(hspec.2 h0).2.2 hs]
    have ht : (0:ℚ) < ((p + n : ℕ) : ℚ) :=
      Nat.cast_pos.mpr (Nat.pos_of_ne_zero h0)
    have hs0 : 0 ≤ s := div_nonneg (Nat.cast_nonneg p) (le_of_lt ht)
    have hs2 : (p : ℚ) < 1/2 * ((p + n : ℕ) : ℚ) := by
      have hcopy := hs
      rw [hsdef, div_lt_iff₀ ht] at hcopy
      exact hcopy
    have h2pn : 2 * p < p + n := by
      have hq : 2 * (p : ℚ) < ((p + n : ℕ) : ℚ) := by linarith
      exact_mod_cast hq
    have h2p : 2 * (p : ℚ) + 1 ≤ ((p + n : ℕ) : ℚ) := by
      have hnat : 2 * p + 1 ≤ p + n := h2pn
      exact_mod_cast hnat
    have hp15 : (p : ℚ) ≤ 15 := by exact_mod_cast hple
    have hs49 : s ≤ 49/100 := by
      rw [hsdef, div_le_iff₀ ht]
      linarith
    have hmin : min (95/100 : ℚ) ((1 - s) * (1/2)) = (1 - s) * (1/2) :=
      min_eq_right (by linarith)
    rw [hmin]
    constructor
    · have h26 := le_round2_of 26 ((1 - s) * (1/2)) (by push_cast; linarith)
      calc (1/4 : ℚ) < ((26 : ℤ) : ℚ) / 100 := by norm_num
        _ ≤ round2 ((1 - s) * (1/2)) := h26
    · have h50 := round2_le_of 50 ((1 - s) * (1/2)) (by push_cast; linarith)
      calc round2 ((1 - s) * (1/2)) ≤ ((50 : ℤ) : ℚ) / 100 := h50
        _ = 1/2 := by norm_num
  · rw [(hspec.2 h0).1 hs] at hneg
    exact absurd (show "neutral" = "negative" from hneg) (by decide)
  · rw [(hspec.2 h0).2.1 hs] at hneg
    exact absurd (show "positive" = "negative" from hneg) (by decide)

theorem positiveConfidenceBound (p n : ℕ)
    (hpos : (sentimentAndConfidence p n).1 = "positive") :
    7/10 ≤ round2 (sentimentAndConfidence p n).2 := by
  have hspec := sentimentAndConfidence_spec p n
  by_cases h0 : p + n = 0
  · rw [hspec.1 h0] at hpos
    exact absurd (show "neutral" = "positive" from hpos) (by decide)
  set s : ℚ := (p : ℚ) / ((p + n : ℕ) : ℚ) with hsdef
  rcases lt_trichotomy s (1/2) with hs | hs | hs
  · rw [(hspec.2 h0).2.2 hs] at hpos
    exact absurd (show "negative" = "positive" from hpos) (by decide)
  · rw [(hspec.2 h0).1 hs] at hpos
    exact absurd (show "neutral" = "positive" from hpos) (by decide)
  · rw [(hspec.2 h0).2.1 hs]
    by_cases h5 : 5 ≤ p
    · rw [if_pos h5]
      norm_num [round2, round_eq]
    · rw [if_neg h5]
      have hx : (33/40 : ℚ) ≤ min (95/100) (70/100 + s * (25/100)) :=
        le_min (by norm_num) (by linarith)
      have h70 := le_round2_of 70 (min (95/100) (70/100 + s * (25/100)))
        (by push_cast; linarith)
      calc (7/10 : ℚ) = ((70 : ℤ) : ℚ) / 100 := by norm_num
        _ ≤ _ := h70

/-- C10: every negative verdict of the heuristic scorer carries a
confidence in (1/4, 1/2], every positive verdict a confidence of at least
0.70, so a negative verdict always has strictly lower confidence than any
positive verdict. -/
theorem C10_confidence_order (content : String) :
    ((analyzeSentiment content).overall_sentiment = "negative" →
      1/4 < (analyzeSentiment content).confidence ∧
      (analyzeSentiment content).confidence ≤ 1/2) ∧
    ((analyzeSentiment content).overall_sentiment = "positive" →
      7/10 ≤ (analyzeSentiment content).confidence) ∧
    (∀ other : String,
      (analyzeSentiment content).overall_sentiment = "negative" →
      (analyzeSentiment other).overall_sentiment = "positive" →
      (analyzeSentiment content).confidence < (analyzeSentiment other).confidence) := by
  refine ⟨?_, ?_, ?_⟩
  · intro hneg
    rw [analyzeSentiment_overall_eq] at hneg
    rw [analyzeSentiment_confidence_eq]
    exact negativeConfidenceBounds _ _ (posCount_le_fifteen content) hneg
  · intro hpos
    rw [analyzeSentiment_overall_eq] at hpos
    rw [analyzeSentiment_confidence_eq]
    exact positiveConfidenceBound _ _ hpos
  · intro other hneg hpos
    rw [analyzeSentiment_overall_eq] at hneg hpos
    rw [analyzeSentiment_confidence_eq content, analyzeSentiment_confidence_eq other]
    have h1 := negativeConfidenceBounds _ _ (posCount_le_fifteen content) hneg
    have h2 := positiveConfidenceBound _ _ hpos
    linarith [h1.2, h2]

/-- C10 witness: "risk" is scored negative with confidence at most 1/2 and
strictly below the confidence of the positively scored "growth". -/
theorem C10_witness :
    (analyzeSentiment "risk").confidence ≤ 1/2 ∧
    (analyzeSentiment "risk").confidence < (analyzeSentiment "growth").confidence := by
  have hpr : posCount "risk" = 0 := by decide
  have hnr : negCount "risk" = 1 := by decide
  have hpg : posCount "growth" = 1 := by decide
  have hng : negCount "growth" = 0 := by decide
  have hneg : (analyzeSentiment "risk").overall_sentiment = "negative" := by
    rw [analyzeSentiment_overall_eq, hpr, hnr]
    rw [((sentimentAndConfidence_spec 0 1).2 (by decide)).2.2 (by norm_num)]
  have hpos : (analyzeSentiment "growth").overall_sentiment = "positive" := by
    rw [analyzeSentiment_overall_eq, hpg, hng]
    rw [((sentimentAndConfidence_spec 1 0).2 (by decide)).2.1 (by norm_num)]
  exact ⟨((C10_confidence_order "risk").1 hneg).2,
         (C10_confidence_order "risk").2.2 "growth" hneg hpos⟩

-- ======================================================================
-- C1
-- ======================================================================

theorem genSummary_empty :
    generateSummary emptySummaryInput = defaultedRunSummary := by
  unfold generateSummary emptySummaryInput defaultedRunSummary
  norm_num [determineRecommendation, totalScore, growthScore, marginScore,
    sentimentScore, round2, round_eq]
  decide

theorem invokePipeline_empty (extract : String → ExtractedData) :
    invokePipeline extract "" =
      { report_content := ""
        financial_metrics := none
        segment_performance := none
        forward_guidance := none
        sentiment_analysis := none
        executive_summary := some (generateSummary emptySummaryInput)
        metadata := some initializedMetadata
        errors := ["Data extraction failed: " ++
            pyListRepr ["No report content available for extraction"],
          "Sentiment analysis failed: " ++
            pyListRepr ["No report content available for sentiment analysis"]] } :=
  rfl

/-- C1 counterexample: on the empty report the summary stage succeeds and
the final executive summary is non-empty, so it is false that every stage
returns a failed result and that every output key is empty. -/
theorem C1_counterexample :
    (invokePipeline (fun _ => trivialExtraction) "").executive_summary ≠ none ∧
    (summaryProcess emptySummaryInput).status = AgentStatus.success := by
  refine ⟨?_, rfl⟩
  rw [invokePipeline_empty]
  simp

/-- C1 amended: running the pipeline on the empty report content completes
(no fault propagates); the data extractor and sentiment analyzer fail with
explicit errors collected in the state's error list, the coordinator node
only initializes metadata, the summary generator succeeds on the defaulted
inputs, and the final state retains all five output keys: the first four
empty and the executive summary holding the fallback record (HOLD, 0.44). -/
theorem C1_amended (extract : String → ExtractedData) :
    (invokePipeline extract "").financial_metrics = none ∧
    (invokePipeline extract "").segment_performance = none ∧
    (invokePipeline extract "").forward_guidance = none ∧
    (invokePipeline extract "").sentiment_analysis = none ∧
    (invokePipeline extract "").executive_summary = some defaultedRunSummary ∧
    (invokePipeline extract "").errors =
      ["Data extraction failed: " ++
          pyListRepr ["No report content available for extraction"],
        "Sentiment analysis failed: " ++
          pyListRepr ["No report content available for sentiment analysis"]] := by
  rw [invokePipeline_empty, genSummary_empty]
  exact ⟨rfl, rfl, rfl, rfl, rfl, rfl⟩

/-- C1 witness: the amended statement at a concrete extraction function. -/
theorem C1_witness :
    (invokePipeline (fun _ => trivialExtraction) "").executive_summary =
      some defaultedRunSummary ∧
    (invokePipeline (fun _ => trivialExtraction) "").financial_metrics = none :=
  ⟨(C1_amended (fun _ => trivialExtraction)).2.2.2.2.1,
   (C1_amended (fun _ => trivialExtraction)).1⟩
